import Mathlib

/-!
Shallow embedding of the contract-invocation workflow of
`crates/cargo-contract/src/cmd/call.rs` and
`crates/cargo-contract/src/cmd/instantiate.rs`.

External collaborators (chain client, transcoder, confirmation prompt,
printing helpers from the parent `cmd` module) are modelled as an explicit
environment record; every observable side effect (network round-trip,
printed line, status notification, confirmation prompt) is recorded in an
event trace, so the command handlers become pure functions
`opts → env → (Except error Unit) × List Event`.
-/

namespace CargoContract

/-- Two-dimensional weight from `sp_weights::Weight`: an execution-time
component (`ref_time`) and a proof-size component. -/
structure Weight where
  ref_time : Nat
  proof_size : Nat
deriving DecidableEq, Repr

/-- Embeds `Weight::from_parts(ref_time, proof_size)`. -/
def Weight.from_parts (ref_time proof_size : Nat) : Weight :=
  ⟨ref_time, proof_size⟩

/-- Storage deposit reported by a dry run
(`pallet_contracts_primitives::StorageDeposit`). -/
inductive StorageDeposit where
  | charge (amount : Nat)
  | refund (amount : Nat)
deriving DecidableEq, Repr

/-- Opaque on-chain dispatch error (the `Err` payload of a dry run's
`result` field); decoding it into a renderable object is delegated to the
external `ErrorVariant::from_dispatch_error`. -/
structure DispatchError where
  code : Nat
deriving DecidableEq, Repr

/-- Return value of a successful contract execution
(`pallet_contracts_primitives::ExecReturnValue`): return flags plus raw
return data bytes. Bit 0 of the flags is the REVERT flag. -/
structure ExecReturnValue where
  flags : Nat
  data : List Nat
deriving DecidableEq, Repr

/-- Embeds `ExecReturnValue::did_revert`: tests the REVERT bit of the
return flags. -/
def ExecReturnValue.did_revert (v : ExecReturnValue) : Bool :=
  v.flags % 2 == 1

instance {ε α : Type} [DecidableEq ε] [DecidableEq α] : DecidableEq (Except ε α) :=
  fun x y =>
    match x, y with
    | .ok a, .ok b =>
        if h : a = b then .isTrue (by rw [h]) else .isFalse (by simp [h])
    | .error a, .error b =>
        if h : a = b then .isTrue (by rw [h]) else .isFalse (by simp [h])
    | .ok _, .error _ => .isFalse (by simp)
    | .error _, .ok _ => .isFalse (by simp)

/-- Outcome of a dry run (`ContractResult` as consumed by both commands):
a dispatch-level result plus consumed/required weight and storage
deposit. -/
structure ContractResult where
  result : Except DispatchError ExecReturnValue
  gas_consumed : Weight
  gas_required : Weight
  storage_deposit : StorageDeposit
deriving DecidableEq, Repr

/-- Decoded ABI value produced by the external transcoder
(`contract_transcode::Value`); opaque except for its rendering. -/
structure Value where
  render : String
deriving DecidableEq, Repr

/-- Decoded dispatch-error object (`ErrorVariant` produced by
`ErrorVariant::from_dispatch_error`): opaque except for its `Display`
rendering (`msg`) and its `serde_json::to_string_pretty` rendering
(`jsonText`). -/
structure DecodedError where
  msg : String
  jsonText : String
deriving DecidableEq, Repr

/-- Rendered events of a submission (`DisplayEvents` after
`from_events`): opaque except for its JSON serialization and its human
rendering. -/
structure DisplayEvents where
  json : String
  human : String
deriving DecidableEq, Repr

/-- Leaf value of a serialized JSON document field. Structured
sub-objects that the workflow never inspects (weights, deposits, the
events array) are kept as typed leaves; `null` is distinct from an absent
field. -/
inductive JVal where
  | null
  | bool (b : Bool)
  | str (s : String)
  | weight (w : Weight)
  | deposit (d : StorageDeposit)
  | events (json : String)
deriving DecidableEq, Repr

/-- A serialized JSON object document: ordered fields. -/
abbrev JDoc := List (String × JVal)

/-- Looks up the first field with the given key in a JSON document;
`none` means the field is absent. -/
def jLookup (doc : JDoc) (key : String) : Option JVal :=
  match doc with
  | [] => none
  | (k, v) :: rest => if k = key then some v else jLookup rest key

/-- Observable side effects of one command invocation, in order. Network
round-trips are `queryTokenMetadata`, `dryRunCall`, `dryRunInstantiate`,
`submitCall` and `submitInstantiate`; the rest are terminal output or the
interactive prompt. -/
inductive Event where
  | queryTokenMetadata
  | dryRunCall
  | dryRunInstantiate
  | submitCall (gas_limit : Weight)
  | submitInstantiate (gas_limit : Weight)
  | printDryRunningStatus (name : String)
  | printGasRequiredSuccess (gas : Weight)
  | promptConfirmTx
  | printJson (doc : JDoc)
  | printOutput (text : String)
  | printNameValue (key value : String)
  | printContractExecResultDebug
  | printContractExecResult
  | printDryRunWarning (entity : String)
deriving DecidableEq, Repr

/-- True exactly for the events that are network round-trips. -/
def Event.isNetwork : Event → Bool
  | .queryTokenMetadata => true
  | .dryRunCall => true
  | .dryRunInstantiate => true
  | .submitCall _ => true
  | .submitInstantiate _ => true
  | _ => false

/-- True exactly for the submission events (`call_exec.call(..)` /
`instantiate_exec.instantiate(..)`). -/
def Event.isSubmit : Event → Bool
  | .submitCall _ => true
  | .submitInstantiate _ => true
  | _ => false

/-- Error type a command handler terminates with (`ErrorVariant` on the
Rust side, where every `anyhow::Error` converts into the generic
variant). The `cancelled` tag is the distinguished outcome of a declined
confirmation prompt (see `prompt_confirm_tx`). -/
inductive CmdError where
  | dispatch (object : DecodedError)
  | generic (msg : String)
  | cancelled
deriving DecidableEq, Repr

/-- Failure of the pre-submission gas estimation helpers. On the Rust
side all of these are `anyhow::Error` values distinguished only by their
message; the constructors keep them apart and `toCmdError` restores the
message-level view. -/
inductive EstimateError where
  | missingExplicitWeight
  | localError (msg : String)
  | dispatchJson (object : DecodedError)
  | preSubmissionDryRunFailed
deriving DecidableEq, Repr

/-- Conversion of an estimation failure into the handler's error type,
mirroring `From<anyhow::Error> for ErrorVariant` (generic, carrying the
anyhow message). -/
def EstimateError.toCmdError : EstimateError → CmdError
  | .missingExplicitWeight =>
      .generic "Weight args `--gas` and `--proof-size` required if `--skip-dry-run` specified"
  | .localError msg => .generic msg
  | .dispatchJson object => .generic object.jsonText
  | .preSubmissionDryRunFailed =>
      .generic "Pre-submission dry-run failed. Use --skip-dry-run to skip this step."

/-- Modelled from the spec: `prompt_confirm_tx` (defined in the parent
`cmd` module, not under `src/`) renders a preview and waits for the
user's answer; it returns `Cancelled` when the user declines, which the
caller propagates as a distinctly-tagged clean termination. -/
def prompt_confirm_tx (accept : Bool) : Except CmdError Unit :=
  if accept then .ok () else .error .cancelled

/-- The fields of `CallExec` the workflow reads: message name, arguments
and the optional explicit weight components `--gas` / `--proof-size`. -/
structure CallExec where
  message : String
  args : List String
  gas_limit : Option Nat
  proof_size : Option Nat
deriving DecidableEq, Repr

/-- Responses of the external collaborators during one `call` command
invocation: the token-metadata query, the command build, the dry run, the
transcoder, dispatch-error decoding, the user's answer at the prompt, the
submission and the event rendering. Each fallible collaborator is an
`Except` with a local error message. -/
structure CallEnv where
  token_metadata : Except String Unit
  build : Except String Unit
  dry_run : Except String ContractResult
  decode_return : List Nat → Except String Value
  decode_dispatch : DispatchError → Except String DecodedError
  confirm_accept : Bool
  submit : Except String Unit
  display_events : Except String DisplayEvents

/-- Embeds `pre_submit_dry_run_gas_estimate_call`: with `--skip-dry-run`,
requires both explicit weight components and performs no network call;
otherwise dry-runs (with a "dry-running" status notice unless in JSON
mode) and resolves each weight axis independently, preferring the user's
explicit value over the estimate. Returns the result together with the
emitted event trace. -/
def pre_submit_dry_run_gas_estimate_call (call_exec : CallExec) (env : CallEnv)
    (output_json skip_dry_run : Bool) :
    Except EstimateError Weight × List Event :=
  if skip_dry_run then
    match call_exec.gas_limit, call_exec.proof_size with
    | some ref_time, some proof_size =>
        (.ok (Weight.from_parts ref_time proof_size), [])
    | _, _ => (.error .missingExplicitWeight, [])
  else
    let pre : List Event :=
      if output_json then [] else [.printDryRunningStatus call_exec.message]
    match env.dry_run with
    | .error e => (.error (.localError e), pre ++ [.dryRunCall])
    | .ok call_result =>
      match call_result.result with
      | .ok _ =>
        let post : List Event :=
          if output_json then []
          else [.printGasRequiredSuccess call_result.gas_required]
        let ref_time := call_exec.gas_limit.getD call_result.gas_required.ref_time
        let proof_size :=
          call_exec.proof_size.getD call_result.gas_required.proof_size
        (.ok (Weight.from_parts ref_time proof_size),
         pre ++ [.dryRunCall] ++ post)
      | .error err =>
        match env.decode_dispatch err with
        | .error e => (.error (.localError e), pre ++ [.dryRunCall])
        | .ok object =>
          if output_json then
            (.error (.dispatchJson object), pre ++ [.dryRunCall])
          else
            (.error .preSubmissionDryRunFailed,
             pre ++ [.dryRunCall] ++
               [.printNameValue "Result" object.msg, .printContractExecResult])

/-- Display rendering of a weight (`gas_limit.to_string()`); the
workflow only passes it to name/value printing. -/
def Weight.display (w : Weight) : String :=
  "Weight(ref_time: " ++ toString w.ref_time ++ ", proof_size: "
    ++ toString w.proof_size ++ ")"

/-- The preview the `call` confirmation prompt shows: message name,
arguments and the resolved gas limit. -/
def call_preview (call_exec : CallExec) (gas_limit : Weight) : List Event :=
  [.printNameValue "Message" call_exec.message,
   .printNameValue "Args" (String.intercalate " " call_exec.args),
   .printNameValue "Gas limit" gas_limit.display]

/-- Result document of a `call` dry run (`CallDryRunResult`): revert
flag, decoded return value, consumed/required gas and storage deposit. -/
structure CallDryRunResult where
  reverted : Bool
  data : Value
  gas_consumed : Weight
  gas_required : Weight
  storage_deposit : StorageDeposit
deriving DecidableEq, Repr

/-- Embeds `CallDryRunResult::to_json` (serde derive: every field is
serialized, in declaration order). -/
def CallDryRunResult.to_json (r : CallDryRunResult) : JDoc :=
  [("reverted", .bool r.reverted),
   ("data", .str r.data.render),
   ("gas_consumed", .weight r.gas_consumed),
   ("gas_required", .weight r.gas_required),
   ("storage_deposit", .deposit r.storage_deposit)]

/-- Embeds `CallDryRunResult::print`: the human rendering emits the
decoded result value and the revert flag as name/value lines. -/
def CallDryRunResult.print (r : CallDryRunResult) : List Event :=
  [.printNameValue "Result" r.data.render,
   .printNameValue "Reverted" (if r.reverted then "true" else "false")]

/-- The command-line options of the `call` command that drive the
workflow (`CallCommand` plus the `CLIExtrinsicOpts` flags it reads). -/
structure CallCommand where
  message : String
  args : List String
  gas_limit : Option Nat
  proof_size : Option Nat
  execute : Bool
  skip_dry_run : Bool
  skip_confirm : Bool
  output_json : Bool
deriving DecidableEq, Repr

/-- The `CallExec` value the handler builds from its options. -/
def CallCommand.call_exec (cmd : CallCommand) : CallExec :=
  ⟨cmd.message, cmd.args, cmd.gas_limit, cmd.proof_size⟩

/-- Embeds `CallCommand::handle`. Queries token metadata and builds the
request; then either (dry-run-only path) runs one simulation and renders
its outcome, or (execute path) estimates gas via
`pre_submit_dry_run_gas_estimate_call`, runs the confirmation gate unless
skipped, submits with the resolved weight and renders the events.
`display_contract_exec_result`/`_debug` and the dry-run warning (parent
`cmd` module, not under `src/`) are modelled from the spec as infallible
best-effort summary prints. -/
def CallCommand.handle (cmd : CallCommand) (env : CallEnv) :
    Except CmdError Unit × List Event :=
  match env.token_metadata with
  | .error e => (.error (.generic e), [.queryTokenMetadata])
  | .ok _ =>
  match env.build with
  | .error e => (.error (.generic e), [.queryTokenMetadata])
  | .ok _ =>
  if !cmd.execute then
    match env.dry_run with
    | .error e => (.error (.generic e), [.queryTokenMetadata, .dryRunCall])
    | .ok result =>
      match result.result with
      | .ok ret_val =>
        match env.decode_return ret_val.data with
        | .error e =>
            (.error (.generic ("Failed to decode return value: " ++ e)),
             [.queryTokenMetadata, .dryRunCall])
        | .ok value =>
          let dry_run_result : CallDryRunResult :=
            { reverted := ret_val.did_revert
              data := value
              gas_consumed := result.gas_consumed
              gas_required := result.gas_required
              storage_deposit := result.storage_deposit }
          if cmd.output_json then
            (.ok (), [.queryTokenMetadata, .dryRunCall,
                      .printJson dry_run_result.to_json])
          else
            (.ok (), [.queryTokenMetadata, .dryRunCall] ++ dry_run_result.print
                ++ [.printContractExecResultDebug, .printDryRunWarning "message"])
      | .error err =>
        match env.decode_dispatch err with
        | .error e =>
            (.error (.generic e), [.queryTokenMetadata, .dryRunCall])
        | .ok object =>
          if cmd.output_json then
            (.error (.dispatch object), [.queryTokenMetadata, .dryRunCall])
          else
            (.ok (), [.queryTokenMetadata, .dryRunCall,
                      .printNameValue "Result" object.msg,
                      .printContractExecResult])
  else
    let est := pre_submit_dry_run_gas_estimate_call cmd.call_exec env
      cmd.output_json cmd.skip_dry_run
    let trace := Event.queryTokenMetadata :: est.2
    match est.1 with
    | .error e => (.error e.toCmdError, trace)
    | .ok gas_limit =>
      let gate : Except CmdError Unit × List Event :=
        if !cmd.skip_confirm then
          (prompt_confirm_tx env.confirm_accept,
           trace ++ call_preview cmd.call_exec gas_limit ++ [.promptConfirmTx])
        else (.ok (), trace)
      match gate.1 with
      | .error e => (.error e, gate.2)
      | .ok _ =>
        match env.submit with
        | .error e => (.error (.generic e), gate.2 ++ [.submitCall gas_limit])
        | .ok _ =>
          match env.display_events with
          | .error e =>
              (.error (.generic e), gate.2 ++ [.submitCall gas_limit])
          | .ok de =>
            let output := if cmd.output_json then de.json else de.human
            (.ok (), gate.2 ++ [.submitCall gas_limit, .printOutput output])

/-- Code source of an instantiation (`contract_extrinsics::Code`): fresh
code bytes to upload, or the hash of code already on chain. -/
inductive Code where
  | upload (bytes : List Nat)
  | existing (code_hash : String)
deriving DecidableEq, Repr

/-- The fields of the external `InstantiateArgs` the workflow reads:
constructor name, raw arguments, optional explicit weight components,
the code source and the optional salt. -/
structure InstantiateArgs where
  constructor : String
  raw_args : List String
  gas_limit : Option Nat
  proof_size : Option Nat
  code : Code
  salt : Option (List Nat)
deriving DecidableEq, Repr

/-- Modelled from the spec: the external
`contract_extrinsics::InstantiateDryRunResult` — the decoded dry-run
report of an instantiation, carrying the decoded return value, the
predicted contract address, the revert flag and the gas/deposit
figures. -/
structure InstantiateDryRunResult where
  result : Value
  contract : String
  reverted : Bool
  gas_consumed : Weight
  gas_required : Weight
  storage_deposit : StorageDeposit
deriving DecidableEq, Repr

/-- Modelled from the spec: JSON serialization of the external
`InstantiateDryRunResult` (every field serialized). -/
def InstantiateDryRunResult.to_json (r : InstantiateDryRunResult) : JDoc :=
  [("result", .str r.result.render),
   ("contract", .str r.contract),
   ("reverted", .bool r.reverted),
   ("gas_consumed", .weight r.gas_consumed),
   ("gas_required", .weight r.gas_required),
   ("storage_deposit", .deposit r.storage_deposit)]

/-- Embeds `print_instantiate_dry_run_result`: human rendering of an
instantiation dry run as name/value lines. -/
def print_instantiate_dry_run_result (r : InstantiateDryRunResult) : List Event :=
  [.printNameValue "Result" r.result.render,
   .printNameValue "Reverted" (if r.reverted then "true" else "false"),
   .printNameValue "Contract" r.contract,
   .printNameValue "Gas consumed" r.gas_consumed.display]

/-- Result of a successful instantiate submission (the external
`InstantiateExecResult`): the new contract's address and, when new code
was deployed, its code hash; the raw events are consumed through
`DisplayEvents.from_events` (the `display_events` environment field). -/
structure InstantiateExecResult where
  code_hash : Option String
  contract_address : String
deriving DecidableEq, Repr

/-- Result document of a successful instantiation (`InstantiateResult`):
serde skips the `contract` and `code_hash` fields when absent. -/
structure InstantiateResult where
  contract : Option String
  code_hash : Option String
  events : DisplayEvents
deriving DecidableEq, Repr

/-- Embeds `InstantiateResult::to_json`: `contract` and `code_hash` are
omitted (not emitted as null) when `None`, per
`skip_serializing_if = "Option::is_none"`. -/
def InstantiateResult.to_json (r : InstantiateResult) : JDoc :=
  (match r.contract with
   | some c => [("contract", JVal.str c)]
   | none => []) ++
  (match r.code_hash with
   | some h => [("code_hash", JVal.str h)]
   | none => []) ++
  [("events", JVal.events r.events.json)]

/-- Embeds `display_result`: renders a successful instantiation either
as the JSON `InstantiateResult` document or as the human event rendering
followed by the optional code hash and the contract address. -/
def display_result (result : InstantiateExecResult) (de : DisplayEvents)
    (output_json : Bool) : List Event :=
  if output_json then
    [.printJson (InstantiateResult.to_json
      ⟨some result.contract_address, result.code_hash, de⟩)]
  else
    [.printOutput de.human] ++
    (match result.code_hash with
     | some code_hash => [.printNameValue "Code hash" code_hash]
     | none => []) ++
    [.printNameValue "Contract" result.contract_address]

/-- Embeds `print_default_instantiate_preview`: constructor name,
arguments and resolved gas limit. -/
def print_default_instantiate_preview (args : InstantiateArgs)
    (gas_limit : Weight) : List Event :=
  [.printNameValue "Constructor" args.constructor,
   .printNameValue "Args" (String.intercalate " " args.raw_args),
   .printNameValue "Gas limit" gas_limit.display]

/-- The preview the instantiate confirmation prompt shows: the default
preview plus, when the code source is an existing on-chain code hash,
that hash. -/
def instantiate_preview (args : InstantiateArgs) (gas_limit : Weight) :
    List Event :=
  print_default_instantiate_preview args gas_limit ++
  (match args.code with
   | .existing code_hash => [.printNameValue "Code hash" code_hash]
   | .upload _ => [])

/-- Responses of the external collaborators during one `instantiate`
command invocation; `decode_instantiate_dry_run` is the external
"decode instantiate dry-run" operation, which yields either the decoded
report or an already-decoded error object. -/
structure InstantiateEnv where
  token_metadata : Except String Unit
  build : Except String Unit
  dry_run : Except String ContractResult
  decode_instantiate_dry_run :
    ContractResult → Except DecodedError InstantiateDryRunResult
  decode_dispatch : DispatchError → Except String DecodedError
  confirm_accept : Bool
  submit : Except String InstantiateExecResult
  display_events : Except String DisplayEvents

/-- Embeds `pre_submit_dry_run_gas_estimate_instantiate`: identical
logic to the call variant, reading the explicit weight components from
the instantiate arguments and dry-running the instantiation. -/
def pre_submit_dry_run_gas_estimate_instantiate (args : InstantiateArgs)
    (env : InstantiateEnv) (output_json skip_dry_run : Bool) :
    Except EstimateError Weight × List Event :=
  if skip_dry_run then
    match args.gas_limit, args.proof_size with
    | some ref_time, some proof_size =>
        (.ok (Weight.from_parts ref_time proof_size), [])
    | _, _ => (.error .missingExplicitWeight, [])
  else
    let pre : List Event :=
      if output_json then [] else [.printDryRunningStatus args.constructor]
    match env.dry_run with
    | .error e => (.error (.localError e), pre ++ [.dryRunInstantiate])
    | .ok instantiate_result =>
      match instantiate_result.result with
      | .ok _ =>
        let post : List Event :=
          if output_json then []
          else [.printGasRequiredSuccess instantiate_result.gas_required]
        let ref_time :=
          args.gas_limit.getD instantiate_result.gas_required.ref_time
        let proof_size :=
          args.proof_size.getD instantiate_result.gas_required.proof_size
        (.ok (Weight.from_parts ref_time proof_size),
         pre ++ [.dryRunInstantiate] ++ post)
      | .error err =>
        match env.decode_dispatch err with
        | .error e => (.error (.localError e), pre ++ [.dryRunInstantiate])
        | .ok object =>
          if output_json then
            (.error (.dispatchJson object), pre ++ [.dryRunInstantiate])
          else
            (.error .preSubmissionDryRunFailed,
             pre ++ [.dryRunInstantiate] ++
               [.printNameValue "Result" object.msg, .printContractExecResult])

/-- The command-line options of the `instantiate` command that drive the
workflow (`InstantiateCommand` plus the `CLIExtrinsicOpts` flags it
reads, and the code source resolved from the contract artifact). -/
structure InstantiateCommand where
  constructor : String
  args : List String
  gas_limit : Option Nat
  proof_size : Option Nat
  salt : Option (List Nat)
  code : Code
  execute : Bool
  skip_dry_run : Bool
  skip_confirm : Bool
  output_json : Bool
deriving DecidableEq, Repr

/-- The `InstantiateArgs` value the handler builds from its options. -/
def InstantiateCommand.instantiate_args (cmd : InstantiateCommand) :
    InstantiateArgs :=
  ⟨cmd.constructor, cmd.args, cmd.gas_limit, cmd.proof_size, cmd.code, cmd.salt⟩

/-- Embeds `InstantiateCommand::handle`. Queries token metadata and
builds the request; then either (dry-run-only path) runs one simulation
and decodes/renders it — an error object is the command's error in both
output modes — or (execute path) estimates gas, runs the confirmation
gate unless skipped, submits and renders via `display_result`. -/
def InstantiateCommand.handle (cmd : InstantiateCommand)
    (env : InstantiateEnv) : Except CmdError Unit × List Event :=
  match env.token_metadata with
  | .error e => (.error (.generic e), [.queryTokenMetadata])
  | .ok _ =>
  match env.build with
  | .error e => (.error (.generic e), [.queryTokenMetadata])
  | .ok _ =>
  if !cmd.execute then
    match env.dry_run with
    | .error e =>
        (.error (.generic e), [.queryTokenMetadata, .dryRunInstantiate])
    | .ok result =>
      match env.decode_instantiate_dry_run result with
      | .ok dry_run_result =>
        if cmd.output_json then
          (.ok (), [.queryTokenMetadata, .dryRunInstantiate,
                    .printJson dry_run_result.to_json])
        else
          (.ok (), [.queryTokenMetadata, .dryRunInstantiate]
              ++ print_instantiate_dry_run_result dry_run_result
              ++ [.printContractExecResultDebug,
                  .printDryRunWarning "instantiate"])
      | .error object =>
        if cmd.output_json then
          (.error (.dispatch object),
           [.queryTokenMetadata, .dryRunInstantiate])
        else
          (.error (.dispatch object),
           [.queryTokenMetadata, .dryRunInstantiate,
            .printNameValue "Result" object.msg, .printContractExecResult])
  else
    let est := pre_submit_dry_run_gas_estimate_instantiate
      cmd.instantiate_args env cmd.output_json cmd.skip_dry_run
    let trace := Event.queryTokenMetadata :: est.2
    match est.1 with
    | .error e => (.error e.toCmdError, trace)
    | .ok gas_limit =>
      let gate : Except CmdError Unit × List Event :=
        if !cmd.skip_confirm then
          (prompt_confirm_tx env.confirm_accept,
           trace ++ instantiate_preview cmd.instantiate_args gas_limit
                 ++ [.promptConfirmTx])
        else (.ok (), trace)
      match gate.1 with
      | .error e => (.error e, gate.2)
      | .ok _ =>
        match env.submit with
        | .error e =>
            (.error (.generic e), gate.2 ++ [.submitInstantiate gas_limit])
        | .ok instantiate_result =>
          match env.display_events with
          | .error e =>
              (.error (.generic e), gate.2 ++ [.submitInstantiate gas_limit])
          | .ok de =>
            (.ok (), gate.2 ++ [.submitInstantiate gas_limit]
                ++ display_result instantiate_result de cmd.output_json)

/-- Modelled from the spec: the external chain client's instantiate
submission result carries a code hash exactly when new code was
deployed, so with a `Code::Existing` code source (code already on
chain) the reported `code_hash` is `None`. The instantiation logic of
`contract_extrinsics` is not under `src/`; this predicate states that
consistency condition on the environment. -/
def InstantiateEnvConsistentCode (cmd : InstantiateCommand)
    (env : InstantiateEnv) : Prop :=
  ∀ h res, cmd.code = Code.existing h → env.submit = .ok res →
    res.code_hash = none

/-! Concrete fixtures used by the witness theorems. -/

/-- A decoded return value fixture. -/
def sampleValue : Value := ⟨"Ok(42)"⟩

/-- A decoded dispatch-error object fixture. -/
def sampleDecoded : DecodedError :=
  ⟨"ModuleError: ContractTrapped", "json-of-ModuleError-ContractTrapped"⟩

/-- A successful, non-reverted execution return value (REVERT bit clear). -/
def okReturn : ExecReturnValue := ⟨0, [42]⟩

/-- A successful but reverted execution return value (REVERT bit set). -/
def revReturn : ExecReturnValue := ⟨1, [42]⟩

/-- Dry-run outcome: dispatch-level success, not reverted. -/
def okDryRun : ContractResult :=
  { result := .ok okReturn, gas_consumed := ⟨100, 10⟩,
    gas_required := ⟨200, 20⟩, storage_deposit := .charge 5 }

/-- Dry-run outcome: dispatch-level success, contract-level revert. -/
def revDryRun : ContractResult :=
  { result := .ok revReturn, gas_consumed := ⟨100, 10⟩,
    gas_required := ⟨200, 20⟩, storage_deposit := .charge 5 }

/-- Dry-run outcome: dispatch failure. -/
def errDryRun : ContractResult :=
  { result := .error ⟨7⟩, gas_consumed := ⟨100, 10⟩,
    gas_required := ⟨200, 20⟩, storage_deposit := .charge 5 }

/-- Rendered submission events fixture. -/
def sampleEvents : DisplayEvents := ⟨"events-json", "events-human"⟩

/-- A call environment where every collaborator succeeds. -/
def baseCallEnv : CallEnv :=
  { token_metadata := .ok (), build := .ok (), dry_run := .ok okDryRun,
    decode_return := fun _ => .ok sampleValue,
    decode_dispatch := fun _ => .ok sampleDecoded,
    confirm_accept := true, submit := .ok (),
    display_events := .ok sampleEvents }

/-- Default `call` options: human output, dry-run-only, no overrides. -/
def baseCallCmd : CallCommand :=
  { message := "get", args := ["true"], gas_limit := none, proof_size := none,
    execute := false, skip_dry_run := false, skip_confirm := false,
    output_json := false }

/-- A decoded instantiate dry-run report fixture. -/
def sampleInstDryRun : InstantiateDryRunResult :=
  { result := sampleValue, contract := "5Contract", reverted := false,
    gas_consumed := ⟨100, 10⟩, gas_required := ⟨200, 20⟩,
    storage_deposit := .charge 5 }

/-- An instantiate environment where every collaborator succeeds; the
submission reports no new code hash (code already existed on chain). -/
def baseInstEnv : InstantiateEnv :=
  { token_metadata := .ok (), build := .ok (), dry_run := .ok okDryRun,
    decode_instantiate_dry_run := fun _ => .ok sampleInstDryRun,
    decode_dispatch := fun _ => .ok sampleDecoded,
    confirm_accept := true,
    submit := .ok ⟨none, "5NewContract"⟩,
    display_events := .ok sampleEvents }

/-- Default `instantiate` options: human output, dry-run-only, existing
code hash, no overrides. -/
def baseInstCmd : InstantiateCommand :=
  { constructor := "new", args := ["0"], gas_limit := none,
    proof_size := none, salt := none, code := .existing "0xabc",
    execute := false, skip_dry_run := false, skip_confirm := false,
    output_json := false }

/-! Claim theorems. -/

/-- C2: with `--skip-dry-run`, both gas estimators fail with the
missing-explicit-weight error and emit no event at all (in particular no
simulation call) whenever either explicit component is absent, and when
both components are present they return exactly the weight built from the
two user-supplied values, again without any simulation. -/
theorem skip_dry_run_requires_both_explicit_weights
    (call_exec : CallExec) (cenv : CallEnv) (args : InstantiateArgs)
    (ienv : InstantiateEnv) (oj oj' : Bool) :
    (call_exec.gas_limit = none ∨ call_exec.proof_size = none →
      pre_submit_dry_run_gas_estimate_call call_exec cenv oj true
        = (.error .missingExplicitWeight, [])) ∧
    (∀ t p, call_exec.gas_limit = some t → call_exec.proof_size = some p →
      pre_submit_dry_run_gas_estimate_call call_exec cenv oj true
        = (.ok (Weight.from_parts t p), [])) ∧
    (args.gas_limit = none ∨ args.proof_size = none →
      pre_submit_dry_run_gas_estimate_instantiate args ienv oj' true
        = (.error .missingExplicitWeight, [])) ∧
    (∀ t p, args.gas_limit = some t → args.proof_size = some p →
      pre_submit_dry_run_gas_estimate_instantiate args ienv oj' true
        = (.ok (Weight.from_parts t p), [])) := by
  refine ⟨?_, ?_, ?_, ?_⟩
  · rintro (h | h)
    · simp [pre_submit_dry_run_gas_estimate_call, h]
    · cases hg : call_exec.gas_limit <;>
        simp [pre_submit_dry_run_gas_estimate_call, h, hg]
  · intro t p ht hp
    simp [pre_submit_dry_run_gas_estimate_call, ht, hp]
  · rintro (h | h)
    · simp [pre_submit_dry_run_gas_estimate_instantiate, h]
    · cases hg : args.gas_limit <;>
        simp [pre_submit_dry_run_gas_estimate_instantiate, h, hg]
  · intro t p ht hp
    simp [pre_submit_dry_run_gas_estimate_instantiate, ht, hp]

/-- C2 witness: at concrete inputs, a missing proof size fails without
any event and two supplied components resolve verbatim. -/
theorem skip_dry_run_requires_both_explicit_weights_witness :
    pre_submit_dry_run_gas_estimate_call ⟨"get", [], some 9, none⟩
        baseCallEnv false true
      = (.error .missingExplicitWeight, []) ∧
    pre_submit_dry_run_gas_estimate_instantiate
        ⟨"new", [], some 11, some 13, .existing "0xabc", none⟩
        baseInstEnv true true
      = (.ok (Weight.from_parts 11 13), []) :=
  ⟨(skip_dry_run_requires_both_explicit_weights ⟨"get", [], some 9, none⟩
      baseCallEnv ⟨"new", [], some 11, some 13, .existing "0xabc", none⟩
      baseInstEnv false true).1 (Or.inr rfl),
   (skip_dry_run_requires_both_explicit_weights ⟨"get", [], some 9, none⟩
      baseCallEnv ⟨"new", [], some 11, some 13, .existing "0xabc", none⟩
      baseInstEnv false true).2.2.2 11 13 rfl rfl⟩

/-- C4: after a successful pre-submission dry run, both estimators
resolve the submission weight per axis — each axis takes the explicit
user value when present and otherwise that axis of the simulation's
`gas_required`; in particular overrides `(t', None)` resolve to
`(t', p)` where `p` is the estimated proof size. -/
theorem per_axis_weight_resolution
    (call_exec : CallExec) (cenv : CallEnv) (args : InstantiateArgs)
    (ienv : InstantiateEnv) (oj oj' : Bool) (r r' : ContractResult)
    (v v' : ExecReturnValue)
    (hdr : cenv.dry_run = .ok r) (hres : r.result = .ok v)
    (hdr' : ienv.dry_run = .ok r') (hres' : r'.result = .ok v') :
    ((pre_submit_dry_run_gas_estimate_call call_exec cenv oj false).1
      = .ok (Weight.from_parts
          (call_exec.gas_limit.getD r.gas_required.ref_time)
          (call_exec.proof_size.getD r.gas_required.proof_size))) ∧
    (∀ t, call_exec.gas_limit = some t → call_exec.proof_size = none →
      (pre_submit_dry_run_gas_estimate_call call_exec cenv oj false).1
        = .ok (Weight.from_parts t r.gas_required.proof_size)) ∧
    ((pre_submit_dry_run_gas_estimate_instantiate args ienv oj' false).1
      = .ok (Weight.from_parts
          (args.gas_limit.getD r'.gas_required.ref_time)
          (args.proof_size.getD r'.gas_required.proof_size))) ∧
    (∀ t, args.gas_limit = some t → args.proof_size = none →
      (pre_submit_dry_run_gas_estimate_instantiate args ienv oj' false).1
        = .ok (Weight.from_parts t r'.gas_required.proof_size)) := by
  refine ⟨?_, ?_, ?_, ?_⟩
  · simp [pre_submit_dry_run_gas_estimate_call, hdr, hres]
  · intro t ht hp
    simp [pre_submit_dry_run_gas_estimate_call, hdr, hres, ht, hp]
  · simp [pre_submit_dry_run_gas_estimate_instantiate, hdr', hres']
  · intro t ht hp
    simp [pre_submit_dry_run_gas_estimate_instantiate, hdr', hres', ht, hp]

/-- C4 witness: with `gas_required = (200, 20)` and overrides
`(some 7, none)` the call estimator resolves `(7, 20)`, and with no
overrides the instantiate estimator resolves `(200, 20)`. -/
theorem per_axis_weight_resolution_witness :
    (pre_submit_dry_run_gas_estimate_call ⟨"get", [], some 7, none⟩
        baseCallEnv false false).1
      = .ok (Weight.from_parts 7 20) ∧
    (pre_submit_dry_run_gas_estimate_instantiate
        ⟨"new", [], none, none, .existing "0xabc", none⟩
        baseInstEnv false false).1
      = .ok (Weight.from_parts 200 20) :=
  ⟨(per_axis_weight_resolution ⟨"get", [], some 7, none⟩ baseCallEnv
      ⟨"new", [], none, none, .existing "0xabc", none⟩ baseInstEnv
      false false okDryRun okDryRun okReturn okReturn
      rfl rfl rfl rfl).2.1 7 rfl rfl,
   (per_axis_weight_resolution ⟨"get", [], some 7, none⟩ baseCallEnv
      ⟨"new", [], none, none, .existing "0xabc", none⟩ baseInstEnv
      false false okDryRun okDryRun okReturn okReturn
      rfl rfl rfl rfl).2.2.1⟩

/-- C9: in the estimate-then-submit path without `--skip-dry-run`, the
estimators emit the "dry-running" notice, then perform the simulation
round-trip, then (after a successful simulation) emit the "gas required"
notice — and in JSON output mode the trace is exactly the bare
simulation round-trip, with both notices suppressed. -/
theorem estimate_status_notifications
    (call_exec : CallExec) (cenv : CallEnv) (args : InstantiateArgs)
    (ienv : InstantiateEnv) (r r' : ContractResult)
    (v v' : ExecReturnValue)
    (hdr : cenv.dry_run = .ok r) (hres : r.result = .ok v)
    (hdr' : ienv.dry_run = .ok r') (hres' : r'.result = .ok v') :
    ((pre_submit_dry_run_gas_estimate_call call_exec cenv false false).2
      = [.printDryRunningStatus call_exec.message, .dryRunCall,
         .printGasRequiredSuccess r.gas_required]) ∧
    ((pre_submit_dry_run_gas_estimate_call call_exec cenv true false).2
      = [.dryRunCall]) ∧
    ((pre_submit_dry_run_gas_estimate_instantiate args ienv false false).2
      = [.printDryRunningStatus args.constructor, .dryRunInstantiate,
         .printGasRequiredSuccess r'.gas_required]) ∧
    ((pre_submit_dry_run_gas_estimate_instantiate args ienv true false).2
      = [.dryRunInstantiate]) := by
  refine ⟨?_, ?_, ?_, ?_⟩ <;>
    simp [pre_submit_dry_run_gas_estimate_call,
      pre_submit_dry_run_gas_estimate_instantiate, hdr, hres, hdr', hres']

/-- C9 witness: concrete traces of both estimators in human and JSON
output modes. -/
theorem estimate_status_notifications_witness :
    ((pre_submit_dry_run_gas_estimate_call ⟨"get", [], none, none⟩
        baseCallEnv false false).2
      = [.printDryRunningStatus "get", .dryRunCall,
         .printGasRequiredSuccess ⟨200, 20⟩]) ∧
    ((pre_submit_dry_run_gas_estimate_call ⟨"get", [], none, none⟩
        baseCallEnv true false).2
      = [.dryRunCall]) ∧
    ((pre_submit_dry_run_gas_estimate_instantiate
        ⟨"new", [], none, none, .existing "0xabc", none⟩
        baseInstEnv false false).2
      = [.printDryRunningStatus "new", .dryRunInstantiate,
         .printGasRequiredSuccess ⟨200, 20⟩]) ∧
    ((pre_submit_dry_run_gas_estimate_instantiate
        ⟨"new", [], none, none, .existing "0xabc", none⟩
        baseInstEnv true false).2
      = [.dryRunInstantiate]) :=
  estimate_status_notifications ⟨"get", [], none, none⟩ baseCallEnv
    ⟨"new", [], none, none, .existing "0xabc", none⟩ baseInstEnv
    okDryRun okDryRun okReturn okReturn rfl rfl rfl rfl

/-- The call estimator never emits a submission event. -/
lemma no_submit_in_call_estimate (call_exec : CallExec) (cenv : CallEnv)
    (oj sdr : Bool) :
    ∀ ev ∈ (pre_submit_dry_run_gas_estimate_call call_exec cenv oj sdr).2,
      ev.isSubmit = false := by
  unfold pre_submit_dry_run_gas_estimate_call
  cases sdr
  · cases hdr : cenv.dry_run with
    | error e => cases oj <;> simp [hdr, Event.isSubmit]
    | ok r =>
      cases hres : r.result with
      | ok v => cases oj <;> simp [hdr, hres, Event.isSubmit]
      | error d =>
        cases hdd : cenv.decode_dispatch d with
        | error e => cases oj <;> simp [hdr, hres, hdd, Event.isSubmit]
        | ok object => cases oj <;> simp [hdr, hres, hdd, Event.isSubmit]
  · cases hg : call_exec.gas_limit <;> cases hp : call_exec.proof_size <;>
      simp [hg, hp]

/-- The instantiate estimator never emits a submission event. -/
lemma no_submit_in_instantiate_estimate (args : InstantiateArgs)
    (ienv : InstantiateEnv) (oj sdr : Bool) :
    ∀ ev ∈ (pre_submit_dry_run_gas_estimate_instantiate args ienv oj sdr).2,
      ev.isSubmit = false := by
  unfold pre_submit_dry_run_gas_estimate_instantiate
  cases sdr
  · cases hdr : ienv.dry_run with
    | error e => cases oj <;> simp [hdr, Event.isSubmit]
    | ok r =>
      cases hres : r.result with
      | ok v => cases oj <;> simp [hdr, hres, Event.isSubmit]
      | error d =>
        cases hdd : ienv.decode_dispatch d with
        | error e => cases oj <;> simp [hdr, hres, hdd, Event.isSubmit]
        | ok object => cases oj <;> simp [hdr, hres, hdd, Event.isSubmit]
  · cases hg : args.gas_limit <;> cases hp : args.proof_size <;>
      simp [hg, hp]

/-- A pre-submission dry run with a dispatch failure makes the call
estimator fail, whatever the output mode and the error decoding. -/
lemma call_estimate_fails_on_dispatch_failure (call_exec : CallExec)
    (cenv : CallEnv) (oj : Bool) (r : ContractResult) (d : DispatchError)
    (hdr : cenv.dry_run = .ok r) (hres : r.result = .error d) :
    ∃ e, (pre_submit_dry_run_gas_estimate_call call_exec cenv oj false).1
      = Except.error e := by
  unfold pre_submit_dry_run_gas_estimate_call
  cases hdd : cenv.decode_dispatch d with
  | error e => cases oj <;> simp [hdr, hres, hdd]
  | ok object => cases oj <;> simp [hdr, hres, hdd]

/-- A pre-submission dry run with a dispatch failure makes the
instantiate estimator fail, whatever the output mode and the error
decoding. -/
lemma instantiate_estimate_fails_on_dispatch_failure (args : InstantiateArgs)
    (ienv : InstantiateEnv) (oj : Bool) (r : ContractResult)
    (d : DispatchError)
    (hdr : ienv.dry_run = .ok r) (hres : r.result = .error d) :
    ∃ e, (pre_submit_dry_run_gas_estimate_instantiate args ienv oj false).1
      = Except.error e := by
  unfold pre_submit_dry_run_gas_estimate_instantiate
  cases hdd : ienv.decode_dispatch d with
  | error e => cases oj <;> simp [hdr, hres, hdd]
  | ok object => cases oj <;> simp [hdr, hres, hdd]

/-- C1: in the execute path with a pre-submission dry run (no
`--skip-dry-run`), if the dry run's execution result is a dispatch
failure then both command handlers terminate in an error state and their
whole event trace contains no submission event. -/
theorem no_submission_on_failed_simulation
    (cmd : CallCommand) (env : CallEnv) (r : ContractResult)
    (d : DispatchError) (icmd : InstantiateCommand) (ienv : InstantiateEnv)
    (r' : ContractResult) (d' : DispatchError)
    (hex : cmd.execute = true) (hskip : cmd.skip_dry_run = false)
    (hdr : env.dry_run = .ok r) (hres : r.result = .error d)
    (hex' : icmd.execute = true) (hskip' : icmd.skip_dry_run = false)
    (hdr' : ienv.dry_run = .ok r') (hres' : r'.result = .error d') :
    ((∃ e, (cmd.handle env).1 = Except.error e) ∧
      ∀ ev ∈ (cmd.handle env).2, ev.isSubmit = false) ∧
    ((∃ e, (icmd.handle ienv).1 = Except.error e) ∧
      ∀ ev ∈ (icmd.handle ienv).2, ev.isSubmit = false) := by
  constructor
  · obtain ⟨e, he⟩ := call_estimate_fails_on_dispatch_failure
      cmd.call_exec env cmd.output_json r d hdr hres
    cases htm : env.token_metadata with
    | error s => simp [CallCommand.handle, htm, Event.isSubmit]
    | ok u =>
      cases hb : env.build with
      | error s => simp [CallCommand.handle, htm, hb, Event.isSubmit]
      | ok u' =>
        constructor
        · exact ⟨e.toCmdError,
            by simp [CallCommand.handle, htm, hb, hex, hskip, he]⟩
        · intro ev hev
          simp only [CallCommand.handle, htm, hb, hex, hskip, he,
            Bool.not_true, Bool.false_eq_true, if_false,
            List.mem_cons] at hev
          rcases hev with rfl | hev
          · rfl
          · exact no_submit_in_call_estimate cmd.call_exec env
              cmd.output_json false ev hev
  · obtain ⟨e, he⟩ := instantiate_estimate_fails_on_dispatch_failure
      icmd.instantiate_args ienv icmd.output_json r' d' hdr' hres'
    cases htm : ienv.token_metadata with
    | error s => simp [InstantiateCommand.handle, htm, Event.isSubmit]
    | ok u =>
      cases hb : ienv.build with
      | error s => simp [InstantiateCommand.handle, htm, hb, Event.isSubmit]
      | ok u' =>
        constructor
        · exact ⟨e.toCmdError,
            by simp [InstantiateCommand.handle, htm, hb, hex', hskip', he]⟩
        · intro ev hev
          simp only [InstantiateCommand.handle, htm, hb, hex', hskip', he,
            Bool.not_true, Bool.false_eq_true, if_false,
            List.mem_cons] at hev
          rcases hev with rfl | hev
          · rfl
          · exact no_submit_in_instantiate_estimate icmd.instantiate_args
              ienv icmd.output_json false ev hev

/-- C1 witness: with a dispatch-failing dry run, the concrete call and
instantiate invocations in execute mode end in error with no submission
event in their traces. -/
theorem no_submission_on_failed_simulation_witness :
    ((∃ e, (CallCommand.handle { baseCallCmd with execute := true }
        { baseCallEnv with dry_run := .ok errDryRun }).1 = Except.error e) ∧
      ∀ ev ∈ (CallCommand.handle { baseCallCmd with execute := true }
        { baseCallEnv with dry_run := .ok errDryRun }).2,
          ev.isSubmit = false) ∧
    ((∃ e, (InstantiateCommand.handle { baseInstCmd with execute := true }
        { baseInstEnv with dry_run := .ok errDryRun }).1 = Except.error e) ∧
      ∀ ev ∈ (InstantiateCommand.handle { baseInstCmd with execute := true }
        { baseInstEnv with dry_run := .ok errDryRun }).2,
          ev.isSubmit = false) :=
  no_submission_on_failed_simulation
    { baseCallCmd with execute := true }
    { baseCallEnv with dry_run := .ok errDryRun } errDryRun ⟨7⟩
    { baseInstCmd with execute := true }
    { baseInstEnv with dry_run := .ok errDryRun } errDryRun ⟨7⟩
    rfl rfl rfl rfl rfl rfl rfl rfl

/-- With `--skip-dry-run` and a missing explicit component the call
estimator fails with the missing-weight error and an empty trace. -/
lemma call_estimate_skip_missing (call_exec : CallExec) (cenv : CallEnv)
    (oj : Bool)
    (h : call_exec.gas_limit = none ∨ call_exec.proof_size = none) :
    pre_submit_dry_run_gas_estimate_call call_exec cenv oj true
      = (.error .missingExplicitWeight, []) := by
  rcases h with h | h
  · simp [pre_submit_dry_run_gas_estimate_call, h]
  · cases hg : call_exec.gas_limit <;>
      simp [pre_submit_dry_run_gas_estimate_call, h, hg]

/-- With `--skip-dry-run` and a missing explicit component the
instantiate estimator fails with the missing-weight error and an empty
trace. -/
lemma instantiate_estimate_skip_missing (args : InstantiateArgs)
    (ienv : InstantiateEnv) (oj : Bool)
    (h : args.gas_limit = none ∨ args.proof_size = none) :
    pre_submit_dry_run_gas_estimate_instantiate args ienv oj true
      = (.error .missingExplicitWeight, []) := by
  rcases h with h | h
  · simp [pre_submit_dry_run_gas_estimate_instantiate, h]
  · cases hg : args.gas_limit <;>
      simp [pre_submit_dry_run_gas_estimate_instantiate, h, hg]

/-- C3 counterexample: a call invocation with `execute`,
`--skip-dry-run` and no explicit gas does fail with the missing-weight
configuration error, but its trace already contains a network
round-trip — the token-metadata query — so "zero network round-trips"
is false on the code. -/
theorem config_error_zero_network_counterexample :
    ((CallCommand.handle
        { baseCallCmd with execute := true, skip_dry_run := true }
        baseCallEnv).1
      = Except.error EstimateError.missingExplicitWeight.toCmdError) ∧
    Event.queryTokenMetadata ∈ (CallCommand.handle
        { baseCallCmd with execute := true, skip_dry_run := true }
        baseCallEnv).2 ∧
    Event.queryTokenMetadata.isNetwork = true := by
  refine ⟨rfl, ?_, rfl⟩
  decide

/-- C3 amended: the missing-explicit-weight configuration error is
detected before any simulation or submission network call — with
`execute`, `--skip-dry-run` and a missing component, once token metadata
and command building succeed the whole trace of either command is
exactly the initial token-metadata query, and the command fails with the
missing-weight error. -/
theorem config_error_before_any_simulation
    (cmd : CallCommand) (env : CallEnv) (icmd : InstantiateCommand)
    (ienv : InstantiateEnv)
    (hex : cmd.execute = true) (hskip : cmd.skip_dry_run = true)
    (hmiss : cmd.gas_limit = none ∨ cmd.proof_size = none)
    (htm : env.token_metadata = .ok ()) (hb : env.build = .ok ())
    (hex' : icmd.execute = true) (hskip' : icmd.skip_dry_run = true)
    (hmiss' : icmd.gas_limit = none ∨ icmd.proof_size = none)
    (htm' : ienv.token_metadata = .ok ()) (hb' : ienv.build = .ok ()) :
    ((cmd.handle env).1
        = Except.error EstimateError.missingExplicitWeight.toCmdError ∧
      (cmd.handle env).2 = [.queryTokenMetadata]) ∧
    ((icmd.handle ienv).1
        = Except.error EstimateError.missingExplicitWeight.toCmdError ∧
      (icmd.handle ienv).2 = [.queryTokenMetadata]) := by
  have hest := call_estimate_skip_missing cmd.call_exec env cmd.output_json
    (by simpa [CallCommand.call_exec] using hmiss)
  have hest' := instantiate_estimate_skip_missing icmd.instantiate_args ienv
    icmd.output_json
    (by simpa [InstantiateCommand.instantiate_args] using hmiss')
  constructor
  · constructor <;>
      simp [CallCommand.handle, htm, hb, hex, hskip, hest]
  · constructor <;>
      simp [InstantiateCommand.handle, htm', hb', hex', hskip', hest']

/-- C3 amended witness: concrete call and instantiate invocations with
`--skip-dry-run` and no explicit gas fail with the missing-weight error
after exactly the token-metadata query. -/
theorem config_error_before_any_simulation_witness :
    ((CallCommand.handle
        { baseCallCmd with execute := true, skip_dry_run := true }
        baseCallEnv).1
        = Except.error EstimateError.missingExplicitWeight.toCmdError ∧
      (CallCommand.handle
        { baseCallCmd with execute := true, skip_dry_run := true }
        baseCallEnv).2 = [.queryTokenMetadata]) ∧
    ((InstantiateCommand.handle
        { baseInstCmd with execute := true, skip_dry_run := true }
        baseInstEnv).1
        = Except.error EstimateError.missingExplicitWeight.toCmdError ∧
      (InstantiateCommand.handle
        { baseInstCmd with execute := true, skip_dry_run := true }
        baseInstEnv).2 = [.queryTokenMetadata]) :=
  config_error_before_any_simulation
    { baseCallCmd with execute := true, skip_dry_run := true } baseCallEnv
    { baseInstCmd with execute := true, skip_dry_run := true } baseInstEnv
    rfl rfl (Or.inl rfl) rfl rfl rfl rfl (Or.inl rfl) rfl rfl

/-- C5: evaluation of both handlers at the failing input. In the
dry-run-only path with a dispatch failure, the instantiate command
terminates with the decoded error object in both output modes, and the
call command does so in JSON mode — but in human mode the call command
prints the decoded object and then terminates successfully (`Ok(())`),
contradicting the documented "still ends in error state" behaviour of
its near-duplicate sibling flow. -/
theorem call_dry_run_dispatch_error_human_mode_result :
    ((CallCommand.handle baseCallCmd
        { baseCallEnv with dry_run := .ok errDryRun }).1
      = Except.ok ()) ∧
    ((CallCommand.handle { baseCallCmd with output_json := true }
        { baseCallEnv with dry_run := .ok errDryRun }).1
      = Except.error (CmdError.dispatch sampleDecoded)) ∧
    ((InstantiateCommand.handle baseInstCmd
        { baseInstEnv with
          dry_run := .ok errDryRun
          decode_instantiate_dry_run := fun _ => .error sampleDecoded }).1
      = Except.error (CmdError.dispatch sampleDecoded)) ∧
    ((InstantiateCommand.handle { baseInstCmd with output_json := true }
        { baseInstEnv with
          dry_run := .ok errDryRun
          decode_instantiate_dry_run := fun _ => .error sampleDecoded }).1
      = Except.error (CmdError.dispatch sampleDecoded)) :=
  ⟨rfl, rfl, rfl, rfl⟩

/-- Events of the call confirmation preview are never submissions. -/
lemma no_submit_in_call_preview (call_exec : CallExec) (w : Weight) :
    ∀ ev ∈ call_preview call_exec w, ev.isSubmit = false := by
  simp [call_preview, Event.isSubmit]

/-- Events of the instantiate confirmation preview are never
submissions. -/
lemma no_submit_in_instantiate_preview (args : InstantiateArgs) (w : Weight) :
    ∀ ev ∈ instantiate_preview args w, ev.isSubmit = false := by
  cases h : args.code <;>
    simp [instantiate_preview, print_default_instantiate_preview, h,
      Event.isSubmit]

/-- C6: with the execute flag set and `--skip-confirm` unset, declining
the confirmation prompt terminates either command with the
distinctly-tagged cancelled outcome — not a dispatch or generic failure
report — and no submission event ever appears in the trace. The
confirmation prompt itself (`prompt_confirm_tx`, parent `cmd` module) is
modelled from the spec. -/
theorem cancellation_is_clean
    (cmd : CallCommand) (env : CallEnv) (icmd : InstantiateCommand)
    (ienv : InstantiateEnv) (w w' : Weight)
    (hex : cmd.execute = true) (hsc : cmd.skip_confirm = false)
    (hacc : env.confirm_accept = false)
    (htm : env.token_metadata = .ok ()) (hb : env.build = .ok ())
    (hest : (pre_submit_dry_run_gas_estimate_call cmd.call_exec env
      cmd.output_json cmd.skip_dry_run).1 = .ok w)
    (hex' : icmd.execute = true) (hsc' : icmd.skip_confirm = false)
    (hacc' : ienv.confirm_accept = false)
    (htm' : ienv.token_metadata = .ok ()) (hb' : ienv.build = .ok ())
    (hest' : (pre_submit_dry_run_gas_estimate_instantiate
      icmd.instantiate_args ienv icmd.output_json icmd.skip_dry_run).1
        = .ok w') :
    ((cmd.handle env).1 = Except.error CmdError.cancelled ∧
      ∀ ev ∈ (cmd.handle env).2, ev.isSubmit = false) ∧
    ((icmd.handle ienv).1 = Except.error CmdError.cancelled ∧
      ∀ ev ∈ (icmd.handle ienv).2, ev.isSubmit = false) := by
  constructor
  · constructor
    · simp [CallCommand.handle, htm, hb, hex, hsc, hacc, hest,
        prompt_confirm_tx]
    · intro ev hev
      simp only [CallCommand.handle, htm, hb, hex, hsc, hacc, hest,
        prompt_confirm_tx, Bool.not_true, Bool.not_false, if_true,
        Bool.false_eq_true, if_false, List.mem_cons, List.mem_append,
        List.mem_singleton] at hev
      rcases hev with ((rfl | hev) | hev) | (rfl | hev)
      · rfl
      · exact no_submit_in_call_estimate cmd.call_exec env
          cmd.output_json cmd.skip_dry_run ev hev
      · exact no_submit_in_call_preview cmd.call_exec w ev hev
      · rfl
      · cases hev
  · constructor
    · simp [InstantiateCommand.handle, htm', hb', hex', hsc', hacc', hest',
        prompt_confirm_tx]
    · intro ev hev
      simp only [InstantiateCommand.handle, htm', hb', hex', hsc', hacc',
        hest', prompt_confirm_tx, Bool.not_true, Bool.not_false, if_true,
        Bool.false_eq_true, if_false, List.mem_cons, List.mem_append,
        List.mem_singleton] at hev
      rcases hev with ((rfl | hev) | hev) | (rfl | hev)
      · rfl
      · exact no_submit_in_instantiate_estimate icmd.instantiate_args
          ienv icmd.output_json icmd.skip_dry_run ev hev
      · exact no_submit_in_instantiate_preview icmd.instantiate_args w' ev hev
      · rfl
      · cases hev

/-- C6 witness: concrete declined confirmations terminate with the
cancelled tag and submission-free traces. -/
theorem cancellation_is_clean_witness :
    ((CallCommand.handle { baseCallCmd with execute := true }
        { baseCallEnv with confirm_accept := false }).1
        = Except.error CmdError.cancelled ∧
      ∀ ev ∈ (CallCommand.handle { baseCallCmd with execute := true }
        { baseCallEnv with confirm_accept := false }).2,
          ev.isSubmit = false) ∧
    ((InstantiateCommand.handle { baseInstCmd with execute := true }
        { baseInstEnv with confirm_accept := false }).1
        = Except.error CmdError.cancelled ∧
      ∀ ev ∈ (InstantiateCommand.handle { baseInstCmd with execute := true }
        { baseInstEnv with confirm_accept := false }).2,
          ev.isSubmit = false) :=
  cancellation_is_clean
    { baseCallCmd with execute := true }
    { baseCallEnv with confirm_accept := false }
    { baseInstCmd with execute := true }
    { baseInstEnv with confirm_accept := false }
    (Weight.from_parts 200 20) (Weight.from_parts 200 20)
    rfl rfl rfl rfl rfl rfl rfl rfl rfl rfl rfl rfl

/-- C7: in the dry-run-only path, a dry run whose execution succeeded
with the reverted flag set yields a successful command (`Ok(())`, never
an error) whose rendered result document reports `reverted: true`
together with the decoded return value, `gas_consumed`, `gas_required`
and `storage_deposit` — in JSON mode as the serialized document, in
human mode as the printed `Reverted: true` line. -/
theorem revert_is_not_error
    (cmd : CallCommand) (env : CallEnv) (r : ContractResult)
    (v : ExecReturnValue) (val : Value)
    (hex : cmd.execute = false)
    (htm : env.token_metadata = .ok ()) (hb : env.build = .ok ())
    (hdr : env.dry_run = .ok r) (hres : r.result = .ok v)
    (hrev : v.did_revert = true)
    (hdec : env.decode_return v.data = .ok val) :
    ((cmd.handle env).1 = Except.ok ()) ∧
    (cmd.output_json = true →
      Event.printJson (CallDryRunResult.to_json
          ⟨true, val, r.gas_consumed, r.gas_required, r.storage_deposit⟩)
        ∈ (cmd.handle env).2) ∧
    (cmd.output_json = false →
      Event.printNameValue "Reverted" "true" ∈ (cmd.handle env).2) ∧
    (jLookup (CallDryRunResult.to_json
        ⟨true, val, r.gas_consumed, r.gas_required, r.storage_deposit⟩)
        "reverted" = some (.bool true) ∧
      jLookup (CallDryRunResult.to_json
        ⟨true, val, r.gas_consumed, r.gas_required, r.storage_deposit⟩)
        "data" = some (.str val.render) ∧
      jLookup (CallDryRunResult.to_json
        ⟨true, val, r.gas_consumed, r.gas_required, r.storage_deposit⟩)
        "gas_consumed" = some (.weight r.gas_consumed) ∧
      jLookup (CallDryRunResult.to_json
        ⟨true, val, r.gas_consumed, r.gas_required, r.storage_deposit⟩)
        "gas_required" = some (.weight r.gas_required) ∧
      jLookup (CallDryRunResult.to_json
        ⟨true, val, r.gas_consumed, r.gas_required, r.storage_deposit⟩)
        "storage_deposit" = some (.deposit r.storage_deposit)) := by
  refine ⟨?_, ?_, ?_, ?_⟩
  · cases hoj : cmd.output_json <;>
      simp [CallCommand.handle, htm, hb, hex, hdr, hres, hdec, hrev, hoj]
  · intro hoj
    simp [CallCommand.handle, htm, hb, hex, hdr, hres, hdec, hrev, hoj]
  · intro hoj
    simp [CallCommand.handle, htm, hb, hex, hdr, hres, hdec, hrev, hoj,
      CallDryRunResult.print]
  · refine ⟨?_, ?_, ?_, ?_, ?_⟩ <;>
      simp [CallDryRunResult.to_json, jLookup]

/-- C7 witness: concrete reverted dry runs in JSON and human mode
produce a successful result reporting the revert. -/
theorem revert_is_not_error_witness :
    ((CallCommand.handle { baseCallCmd with output_json := true }
        { baseCallEnv with dry_run := .ok revDryRun }).1 = Except.ok ()) ∧
    (Event.printJson (CallDryRunResult.to_json
        ⟨true, sampleValue, ⟨100, 10⟩, ⟨200, 20⟩, .charge 5⟩)
      ∈ (CallCommand.handle { baseCallCmd with output_json := true }
        { baseCallEnv with dry_run := .ok revDryRun }).2) ∧
    ((CallCommand.handle baseCallCmd
        { baseCallEnv with dry_run := .ok revDryRun }).1 = Except.ok ()) ∧
    (Event.printNameValue "Reverted" "true"
      ∈ (CallCommand.handle baseCallCmd
        { baseCallEnv with dry_run := .ok revDryRun }).2) :=
  ⟨(revert_is_not_error { baseCallCmd with output_json := true }
      { baseCallEnv with dry_run := .ok revDryRun } revDryRun revReturn
      sampleValue rfl rfl rfl rfl rfl rfl rfl).1,
   (revert_is_not_error { baseCallCmd with output_json := true }
      { baseCallEnv with dry_run := .ok revDryRun } revDryRun revReturn
      sampleValue rfl rfl rfl rfl rfl rfl rfl).2.1 rfl,
   (revert_is_not_error baseCallCmd
      { baseCallEnv with dry_run := .ok revDryRun } revDryRun revReturn
      sampleValue rfl rfl rfl rfl rfl rfl rfl).1,
   (revert_is_not_error baseCallCmd
      { baseCallEnv with dry_run := .ok revDryRun } revDryRun revReturn
      sampleValue rfl rfl rfl rfl rfl rfl rfl).2.2.1 rfl⟩

/-- C10: in the estimate-then-submit path, a pre-submission dry run
whose execution succeeded but with the reverted flag set is still a
successful estimation — the flow passes the confirmation gate (the
prompt appears whenever `--skip-confirm` is unset) and submits with the
per-axis resolved weight, and the command succeeds. -/
theorem revert_does_not_abort_submission
    (cmd : CallCommand) (env : CallEnv) (r : ContractResult)
    (v : ExecReturnValue) (de : DisplayEvents)
    (icmd : InstantiateCommand) (ienv : InstantiateEnv)
    (r' : ContractResult) (v' : ExecReturnValue)
    (ires : InstantiateExecResult) (de' : DisplayEvents)
    (hex : cmd.execute = true) (hskip : cmd.skip_dry_run = false)
    (htm : env.token_metadata = .ok ()) (hb : env.build = .ok ())
    (hdr : env.dry_run = .ok r) (hres : r.result = .ok v)
    (hrev : v.did_revert = true)
    (hacc : env.confirm_accept = true) (hsub : env.submit = .ok ())
    (hde : env.display_events = .ok de)
    (hex' : icmd.execute = true) (hskip' : icmd.skip_dry_run = false)
    (htm' : ienv.token_metadata = .ok ()) (hb' : ienv.build = .ok ())
    (hdr' : ienv.dry_run = .ok r') (hres' : r'.result = .ok v')
    (hrev' : v'.did_revert = true)
    (hacc' : ienv.confirm_accept = true) (hsub' : ienv.submit = .ok ires)
    (hde' : ienv.display_events = .ok de') :
    ((cmd.handle env).1 = Except.ok () ∧
      Event.submitCall (Weight.from_parts
          (cmd.gas_limit.getD r.gas_required.ref_time)
          (cmd.proof_size.getD r.gas_required.proof_size))
        ∈ (cmd.handle env).2 ∧
      (cmd.skip_confirm = false →
        Event.promptConfirmTx ∈ (cmd.handle env).2)) ∧
    ((icmd.handle ienv).1 = Except.ok () ∧
      Event.submitInstantiate (Weight.from_parts
          (icmd.gas_limit.getD r'.gas_required.ref_time)
          (icmd.proof_size.getD r'.gas_required.proof_size))
        ∈ (icmd.handle ienv).2 ∧
      (icmd.skip_confirm = false →
        Event.promptConfirmTx ∈ (icmd.handle ienv).2)) := by
  have hest : (pre_submit_dry_run_gas_estimate_call cmd.call_exec env
      cmd.output_json false).1
      = .ok (Weight.from_parts
          (cmd.gas_limit.getD r.gas_required.ref_time)
          (cmd.proof_size.getD r.gas_required.proof_size)) := by
    simp [pre_submit_dry_run_gas_estimate_call, hdr, hres,
      CallCommand.call_exec]
  have hest' : (pre_submit_dry_run_gas_estimate_instantiate
      icmd.instantiate_args ienv icmd.output_json false).1
      = .ok (Weight.from_parts
          (icmd.gas_limit.getD r'.gas_required.ref_time)
          (icmd.proof_size.getD r'.gas_required.proof_size)) := by
    simp [pre_submit_dry_run_gas_estimate_instantiate, hdr', hres',
      InstantiateCommand.instantiate_args]
  constructor
  · refine ⟨?_, ?_, ?_⟩
    · cases hsc : cmd.skip_confirm <;>
        simp [CallCommand.handle, htm, hb, hex, hskip, hest, hsc, hacc,
          hsub, hde, prompt_confirm_tx]
    · cases hsc : cmd.skip_confirm <;>
        simp [CallCommand.handle, htm, hb, hex, hskip, hest, hsc, hacc,
          hsub, hde, prompt_confirm_tx]
    · intro hsc
      simp [CallCommand.handle, htm, hb, hex, hskip, hest, hsc, hacc,
        hsub, hde, prompt_confirm_tx]
  · refine ⟨?_, ?_, ?_⟩
    · cases hsc : icmd.skip_confirm <;>
        simp [InstantiateCommand.handle, htm', hb', hex', hskip', hest',
          hsc, hacc', hsub', hde', prompt_confirm_tx]
    · cases hsc : icmd.skip_confirm <;>
        simp [InstantiateCommand.handle, htm', hb', hex', hskip', hest',
          hsc, hacc', hsub', hde', prompt_confirm_tx]
    · intro hsc
      simp [InstantiateCommand.handle, htm', hb', hex', hskip', hest',
        hsc, hacc', hsub', hde', prompt_confirm_tx]

/-- C10 witness: with a reverted-but-successful dry run, both concrete
commands confirm, submit with the estimate `(200, 20)` and succeed. -/
theorem revert_does_not_abort_submission_witness :
    ((CallCommand.handle { baseCallCmd with execute := true }
        { baseCallEnv with dry_run := .ok revDryRun }).1 = Except.ok () ∧
      Event.submitCall (Weight.from_parts 200 20)
        ∈ (CallCommand.handle { baseCallCmd with execute := true }
          { baseCallEnv with dry_run := .ok revDryRun }).2 ∧
      (false = false →
        Event.promptConfirmTx
          ∈ (CallCommand.handle { baseCallCmd with execute := true }
            { baseCallEnv with dry_run := .ok revDryRun }).2)) ∧
    ((InstantiateCommand.handle { baseInstCmd with execute := true }
        { baseInstEnv with dry_run := .ok revDryRun }).1 = Except.ok () ∧
      Event.submitInstantiate (Weight.from_parts 200 20)
        ∈ (InstantiateCommand.handle { baseInstCmd with execute := true }
          { baseInstEnv with dry_run := .ok revDryRun }).2 ∧
      (false = false →
        Event.promptConfirmTx
          ∈ (InstantiateCommand.handle { baseInstCmd with execute := true }
            { baseInstEnv with dry_run := .ok revDryRun }).2)) :=
  revert_does_not_abort_submission
    { baseCallCmd with execute := true }
    { baseCallEnv with dry_run := .ok revDryRun } revDryRun revReturn
    sampleEvents
    { baseInstCmd with execute := true }
    { baseInstEnv with dry_run := .ok revDryRun } revDryRun revReturn
    ⟨none, "5NewContract"⟩ sampleEvents
    rfl rfl rfl rfl rfl rfl rfl rfl rfl rfl
    rfl rfl rfl rfl rfl rfl rfl rfl rfl rfl

/-- C8: a successful instantiate submission renders the deployed
contract address in both output modes; the `code_hash` field appears
exactly when the submission result carries one (when new code was
deployed), and when absent it is omitted from the JSON document
entirely — `jLookup … = none`, not a `null` value. Under the
spec-modelled consistency condition `InstantiateEnvConsistentCode`, a
`Code::Existing` code source forces the reported code hash to be
absent. -/
theorem instantiate_submission_rendering
    (cmd : InstantiateCommand) (env : InstantiateEnv)
    (ires : InstantiateExecResult) (de : DisplayEvents) (w : Weight)
    (hex : cmd.execute = true)
    (htm : env.token_metadata = .ok ()) (hb : env.build = .ok ())
    (hest : (pre_submit_dry_run_gas_estimate_instantiate
      cmd.instantiate_args env cmd.output_json cmd.skip_dry_run).1 = .ok w)
    (hacc : env.confirm_accept = true)
    (hsub : env.submit = .ok ires) (hde : env.display_events = .ok de) :
    ((cmd.handle env).1 = Except.ok ()) ∧
    (cmd.output_json = true →
      Event.printJson (InstantiateResult.to_json
          ⟨some ires.contract_address, ires.code_hash, de⟩)
        ∈ (cmd.handle env).2) ∧
    (cmd.output_json = false →
      Event.printNameValue "Contract" ires.contract_address
        ∈ (cmd.handle env).2) ∧
    (jLookup (InstantiateResult.to_json
        ⟨some ires.contract_address, ires.code_hash, de⟩) "contract"
      = some (.str ires.contract_address)) ∧
    (∀ h, ires.code_hash = some h →
      jLookup (InstantiateResult.to_json
          ⟨some ires.contract_address, ires.code_hash, de⟩) "code_hash"
        = some (.str h) ∧
      display_result ires de false
        = [.printOutput de.human, .printNameValue "Code hash" h,
           .printNameValue "Contract" ires.contract_address]) ∧
    (ires.code_hash = none →
      jLookup (InstantiateResult.to_json
          ⟨some ires.contract_address, ires.code_hash, de⟩) "code_hash"
        = none ∧
      display_result ires de false
        = [.printOutput de.human,
           .printNameValue "Contract" ires.contract_address]) ∧
    (∀ h, cmd.code = Code.existing h → InstantiateEnvConsistentCode cmd env →
      ires.code_hash = none) := by
  refine ⟨?_, ?_, ?_, ?_, ?_, ?_, ?_⟩
  · cases hsc : cmd.skip_confirm <;>
      simp [InstantiateCommand.handle, htm, hb, hex, hest, hsc, hacc,
        hsub, hde, prompt_confirm_tx]
  · intro hoj
    rw [hoj] at hest
    cases hsc : cmd.skip_confirm <;>
      simp [InstantiateCommand.handle, htm, hb, hex, hest, hsc, hacc,
        hsub, hde, hoj, prompt_confirm_tx, display_result]
  · intro hoj
    rw [hoj] at hest
    cases hsc : cmd.skip_confirm <;> cases hch : ires.code_hash <;>
      simp [InstantiateCommand.handle, htm, hb, hex, hest, hsc, hacc,
        hsub, hde, hoj, hch, prompt_confirm_tx, display_result]
  · simp [InstantiateResult.to_json, jLookup]
  · intro h hch
    constructor
    · simp [InstantiateResult.to_json, jLookup, hch]
    · simp [display_result, hch]
  · intro hch
    constructor
    · simp [InstantiateResult.to_json, jLookup, hch]
    · simp [display_result, hch]
  · intro h hc hwf
    exact hwf h ires hc hsub

/-- C8 witness: a concrete instantiation with `Code::Existing` and a
submission reporting no code hash renders the contract address in both
modes and omits `code_hash` from the JSON document. -/
theorem instantiate_submission_rendering_witness :
    ((InstantiateCommand.handle
        { baseInstCmd with execute := true, output_json := true }
        baseInstEnv).1 = Except.ok ()) ∧
    (Event.printJson (InstantiateResult.to_json
        ⟨some "5NewContract", none, sampleEvents⟩)
      ∈ (InstantiateCommand.handle
        { baseInstCmd with execute := true, output_json := true }
        baseInstEnv).2) ∧
    (Event.printNameValue "Contract" "5NewContract"
      ∈ (InstantiateCommand.handle { baseInstCmd with execute := true }
        baseInstEnv).2) ∧
    (jLookup (InstantiateResult.to_json
        ⟨some "5NewContract", none, sampleEvents⟩) "code_hash" = none) ∧
    ((⟨none, "5NewContract"⟩ : InstantiateExecResult).code_hash = none) := by
  have wf : InstantiateEnvConsistentCode
      { baseInstCmd with execute := true, output_json := true }
      baseInstEnv := by
    intro h res hc hs
    have he := Except.ok.inj hs
    subst he
    rfl
  have Tj := instantiate_submission_rendering
    { baseInstCmd with execute := true, output_json := true } baseInstEnv
    ⟨none, "5NewContract"⟩ sampleEvents (Weight.from_parts 200 20)
    rfl rfl rfl rfl rfl rfl rfl
  have Th := instantiate_submission_rendering
    { baseInstCmd with execute := true } baseInstEnv
    ⟨none, "5NewContract"⟩ sampleEvents (Weight.from_parts 200 20)
    rfl rfl rfl rfl rfl rfl rfl
  exact ⟨Tj.1, Tj.2.1 rfl, Th.2.2.1 rfl, (Tj.2.2.2.2.2.1 rfl).1,
    Tj.2.2.2.2.2.2 "0xabc" rfl wf⟩

end CargoContract
